import Mathlib

/-!
Verification of the device-bound session, token and presence subsystem of the
Intralink backend.

The definitions below are a shallow embedding of the Python source:

* `backend/models/session.py` — `UserSession` and its classmethods
  (`create_session`, `verify_refresh_token`, `revoke_session`,
  `cleanup_expired_sessions`, `extend_expiration`, `update_activity`,
  `is_valid`, `to_dict`, `_hash_refresh_token`, `_detect_device_type`);
* `backend/routes/auth.py` — the remember-me branch of `login`, the token
  blacklist mutated by `logout`, and `check_if_token_revoked`;
* `backend/app.py` — JWT validation order (signature, expiry, blocklist);
* `backend/socketio_events.py` — `on_connect` / `on_disconnect` and the
  `connected_users` registry together with the per-user `is_online` flag;
* `backend/utils/device_fingerprint.py` — `generate_device_fingerprint`.

Modelling conventions: wall-clock instants are natural numbers (seconds);
`datetime.utcnow()` becomes an explicit `now` argument; SQLAlchemy rows become
a `List Session` and row mutation becomes `updateById` keyed on the primary
key; the SHA-256 hex digest is an abstract parameter `H : String → String`
(the claims under verification never depend on the concrete digest, only on
how its inputs are assembled); `secrets.token_urlsafe` / `secrets.token_hex`
become an injective fresh-name supply driven by a nonce counter in the store.
-/

/-- Status column of `user_sessions` (`SessionStatus` enum in session.py). -/
inductive SessionStatus where
  | active
  | revoked
  | expired
deriving DecidableEq

/-- Device type column (`DeviceType` enum in session.py). -/
inductive DeviceType where
  | desktop
  | mobile
  | tablet
  | unknown
deriving DecidableEq

/-- One row of the `user_sessions` table (`UserSession` model). -/
structure Session where
  id : Nat
  user_id : Nat
  device_id : String
  device_name : Option String
  device_type : DeviceType
  user_agent : Option String
  ip_address : Option String
  location : Option String
  refresh_token_hash : String
  session_secret : String
  status : SessionStatus
  created_at : Nat
  last_used_at : Nat
  expires_at : Nat
  revoked_at : Option Nat
deriving DecidableEq

/-- The session table plus the autoincrement primary-key counter and the
nonce supply that stands in for the `secrets` randomness source. -/
structure Store where
  sessions : List Session
  nextId : Nat
  nonce : Nat

/-- `UserSession._hash_refresh_token`: the digest of
`f"{refresh_token}:{session_secret}"`, with the digest function abstracted
as `H`. -/
def hash_refresh_token (H : String → String) (refresh_token session_secret : String) : String :=
  H (refresh_token ++ ":" ++ session_secret)

/-- `secrets.token_urlsafe(64)` modelled as a fresh value per nonce. -/
def freshToken (n : Nat) : String :=
  "token_" ++ String.mk (List.replicate n 'x')

/-- `secrets.token_hex(32)` modelled as a fresh value per nonce. -/
def freshSecret (n : Nat) : String :=
  "secret_" ++ String.mk (List.replicate n 'y')

/-- Match of `needle` against the head of `hay` (character lists). -/
def leadMatch : List Char → List Char → Bool
  | [], _ => true
  | _ :: _, [] => false
  | a :: as, b :: bs => a == b && leadMatch as bs

/-- Occurrence of `needle` anywhere in `hay` (character lists). -/
def subMatch (needle : List Char) : List Char → Bool
  | [] => leadMatch needle []
  | hay@(_ :: rest) => leadMatch needle hay || subMatch needle rest

/-- Python's `needle in hay` substring test. -/
def strContains (hay needle : String) : Bool :=
  subMatch needle.data hay.data

/-- Indicator substrings for mobile devices in `_detect_device_type`. -/
def mobile_indicators : List String :=
  ["mobile", "android", "iphone", "ipod", "blackberry", "windows phone"]

/-- Indicator substrings for tablets in `_detect_device_type`. -/
def tablet_indicators : List String :=
  ["tablet", "ipad"]

/-- `UserSession._detect_device_type`. -/
def detect_device_type (user_agent : Option String) : DeviceType :=
  match user_agent with
  | none => DeviceType.unknown
  | some ua =>
    if ua = "" then DeviceType.unknown
    else
      let lower := ua.toLower
      if mobile_indicators.any (fun ind => strContains lower ind) then DeviceType.mobile
      else if tablet_indicators.any (fun ind => strContains lower ind) then DeviceType.tablet
      else DeviceType.desktop

/-- `UserSession.is_valid`: active and not past `expires_at` at instant `now`. -/
def is_valid (now : Nat) (s : Session) : Bool :=
  decide (s.status = SessionStatus.active) && decide (now < s.expires_at)

/-- Mutation of the row with primary key `i` (SQLAlchemy object mutation plus
commit; primary keys are unique, so exactly the matched row changes). -/
def updateById (i : Nat) (f : Session → Session) (l : List Session) : List Session :=
  l.map (fun s => if s.id = i then f s else s)

/-- `UserSession.extend_expiration` with `days` days: only a valid session is
extended. -/
def extend_expiration (now days : Nat) (s : Session) : Session :=
  if is_valid now s then { s with expires_at := now + days * 86400 } else s

/-- `UserSession.update_activity`: refreshes `last_used_at`, and `ip_address`
when an ip is supplied. -/
def update_activity (now : Nat) (ip : Option String) (s : Session) : Session :=
  { s with
    last_used_at := now,
    ip_address := match ip with | some v => some v | none => s.ip_address }

/-- Status/revocation mutation performed by revocation paths
(`status = REVOKED; revoked_at = utcnow()`). -/
def revoke_mark (now : Nat) (s : Session) : Session :=
  { s with status := SessionStatus.revoked, revoked_at := some now }

/-- Candidate test of `verify_refresh_token`: the query filter
(device id, ACTIVE status, unexpired) together with the per-candidate
constant-time hash comparison `_verify_refresh_token`. -/
def verifyCandidate (H : String → String) (now : Nat) (refresh_token device_id : String)
    (s : Session) : Bool :=
  decide (s.device_id = device_id) && decide (s.status = SessionStatus.active) &&
    decide (now < s.expires_at) &&
    decide (hash_refresh_token H refresh_token s.session_secret = s.refresh_token_hash)

/-- `UserSession.verify_refresh_token`: empty arguments short-circuit to
`none`; otherwise the first session passing `verifyCandidate` is returned
with its `last_used_at` refreshed in the table. -/
def verify_refresh_token (H : String → String) (sessions : List Session) (now : Nat)
    (refresh_token device_id : String) : Option Session × List Session :=
  if refresh_token = "" || device_id = "" then (none, sessions)
  else
    match sessions.find? (verifyCandidate H now refresh_token device_id) with
    | none => (none, sessions)
    | some s =>
        (some { s with last_used_at := now },
         updateById s.id (fun t => { t with last_used_at := now }) sessions)

/-- Scope filter of `revoke_session`: `filter_by(id=session_id)` plus the
optional `filter_by(user_id=user_id)` guarded by Python truthiness of
`user_id`. -/
def revokeScope (session_id : Nat) (user_id : Option Nat) (s : Session) : Bool :=
  decide (s.id = session_id) &&
    (match user_id with
     | none => true
     | some u => if u = 0 then true else decide (s.user_id = u))

/-- `UserSession.revoke_session`: revokes the first session in scope and
returns `true`, or returns `false` leaving the table unchanged. -/
def revoke_session (sessions : List Session) (now : Nat) (session_id : Nat)
    (user_id : Option Nat) : List Session × Bool :=
  match sessions.find? (revokeScope session_id user_id) with
  | some s => (updateById s.id (revoke_mark now) sessions, true)
  | none => (sessions, false)

/-- `UserSession.cleanup_expired_sessions`: every active session past its
`expires_at` becomes expired; the count of swept sessions is returned. -/
def cleanup_expired_sessions (sessions : List Session) (now : Nat) : List Session × Nat :=
  (sessions.map (fun s =>
      if s.expires_at < now ∧ s.status = SessionStatus.active
      then { s with status := SessionStatus.expired } else s),
   (sessions.filter (fun s =>
      decide (s.expires_at < now) && decide (s.status = SessionStatus.active))).length)

/-- `UserSession.create_session`: generates a fresh raw token and per-session
secret, stores only the salted hash, persists an active session expiring
`expires_days` days from `now`, and returns the raw token exactly once. -/
def create_session (H : String → String) (st : Store) (now uid : Nat) (dev : String)
    (deviceName location ip ua : Option String) (expires_days : Nat) :
    Store × Session × String :=
  let refresh_token := freshToken st.nonce
  let session_secret := freshSecret st.nonce
  let token_hash := hash_refresh_token H refresh_token session_secret
  let s : Session :=
    { id := st.nextId, user_id := uid, device_id := dev,
      device_name := deviceName, device_type := detect_device_type ua,
      user_agent := ua, ip_address := ip, location := location,
      refresh_token_hash := token_hash, session_secret := session_secret,
      status := SessionStatus.active, created_at := now, last_used_at := now,
      expires_at := now + expires_days * 86400, revoked_at := none }
  ({ sessions := st.sessions ++ [s], nextId := st.nextId + 1, nonce := st.nonce + 1 },
   s, refresh_token)

/-- Existing-session query of the remember-me branch of `login`:
`filter_by(user_id, device_id, status=ACTIVE).filter(expires_at > utcnow())`. -/
def existingActivePred (uid : Nat) (dev : String) (now : Nat) (s : Session) : Bool :=
  decide (s.user_id = uid) && decide (s.device_id = dev) &&
    decide (s.status = SessionStatus.active) && decide (now < s.expires_at)

/-- The remember-me branch of `login` in routes/auth.py: if an active
unexpired session exists for `(uid, dev)` it is extended and touched, a
replacement session with a rotated token is created, and the old session is
revoked; otherwise a new session is created.  Returns the updated store and
the session backing the issued refresh token. -/
def login_remember (H : String → String) (st : Store) (now uid : Nat) (dev : String)
    (deviceName location ip ua : Option String) : Store × Session :=
  match st.sessions.find? (existingActivePred uid dev now) with
  | some existing =>
      let touched := updateById existing.id
        (fun s => update_activity now ip (extend_expiration now 30 s)) st.sessions
      let r := create_session H { st with sessions := touched } now uid dev
        deviceName location ip ua 30
      ({ r.1 with sessions := updateById existing.id (revoke_mark now) r.1.sessions },
       r.2.1)
  | none =>
      let r := create_session H st now uid dev deviceName location ip ua 30
      (r.1, r.2.1)

/-- JSON values appearing in serialized dictionaries. -/
inductive JVal where
  | str (v : String)
  | num (v : Nat)
  | bool (v : Bool)
  | null
deriving DecidableEq

/-- Python `None`-aware string field serialization. -/
def optStr : Option String → JVal
  | some v => JVal.str v
  | none => JVal.null

/-- `SessionStatus.value`. -/
def statusValue : SessionStatus → String
  | SessionStatus.active => "active"
  | SessionStatus.revoked => "revoked"
  | SessionStatus.expired => "expired"

/-- `DeviceType.value`. -/
def deviceTypeValue : DeviceType → String
  | DeviceType.desktop => "desktop"
  | DeviceType.mobile => "mobile"
  | DeviceType.tablet => "tablet"
  | DeviceType.unknown => "unknown"

/-- `UserSession.to_dict`: the non-sensitive summary, with `user_agent` and
`session_secret` appended only under `include_sensitive`. -/
def to_dict (now : Nat) (s : Session) (include_sensitive : Bool) : List (String × JVal) :=
  let data : List (String × JVal) :=
    [("id", JVal.num s.id),
     ("device_id", JVal.str s.device_id),
     ("device_name", optStr s.device_name),
     ("device_type", JVal.str (deviceTypeValue s.device_type)),
     ("ip_address", optStr s.ip_address),
     ("location", optStr s.location),
     ("status", JVal.str (statusValue s.status)),
     ("created_at", JVal.num s.created_at),
     ("last_used_at", JVal.num s.last_used_at),
     ("expires_at", JVal.num s.expires_at),
     ("is_current", JVal.bool false),
     ("is_valid", JVal.bool (is_valid now s))]
  if include_sensitive then
    data ++ [("user_agent", optStr s.user_agent),
             ("session_secret", JVal.str s.session_secret)]
  else data

/-- A JWT access credential as visible to the validator: subject, unique id
(`jti`), expiry instant, and the key it was signed with. -/
structure AccessToken where
  sub : Nat
  jti : Nat
  exp : Nat
  key : String
deriving DecidableEq

/-- Outcome of per-request JWT validation (the flask-jwt-extended loaders in
app.py: invalid signature, expired, revoked via the blocklist loader, or
accepted with its claims). -/
inductive AuthResult where
  | ok (sub jti : Nat)
  | invalid
  | expired
  | revoked
deriving DecidableEq

/-- `create_access_token` in routes/auth.py: a token for `sub` signed with
the process key, expiring `ttl` after `now`, carrying a fresh `jti`. -/
def create_access_token (key : String) (sub now ttl jti : Nat) : AccessToken :=
  { sub := sub, jti := jti, exp := now + ttl, key := key }

/-- `check_if_token_revoked` (routes/auth.py, registered as the blocklist
loader in app.py): membership of the token's `jti` in `blacklisted_tokens`. -/
def check_if_token_revoked (blacklist : List Nat) (jti : Nat) : Bool :=
  blacklist.contains jti

/-- Per-request JWT validation: signature and expiry are checked statelessly
first, then the blocklist loader is consulted; only then are the claims
accepted. -/
def validate_access_token (cfgKey : String) (blacklist : List Nat) (now : Nat)
    (t : AccessToken) : AuthResult :=
  if t.key ≠ cfgKey then AuthResult.invalid
  else if t.exp ≤ now then AuthResult.expired
  else if check_if_token_revoked blacklist t.jti then AuthResult.revoked
  else AuthResult.ok t.sub t.jti

/-- Bool test for an accepted validation outcome. -/
def authOk : AuthResult → Bool
  | AuthResult.ok _ _ => true
  | _ => false

/-- `blacklisted_tokens.add(jti)` as performed by `logout` / `logout_all`. -/
def logout_blacklist (blacklist : List Nat) (jti : Nat) : List Nat :=
  jti :: blacklist

/-- In-memory presence state of socketio_events.py: the `connected_users`
dict (connection handle to user id) and the set of users whose durable
`is_online` flag is true. -/
structure PresenceState where
  connected : List (Nat × Nat)
  online : List Nat
deriving DecidableEq

/-- Presence events: an authenticated connect of `uid` on handle `h`, or a
disconnect of handle `h`. -/
inductive PEvent where
  | connect (h uid : Nat)
  | disconnect (h : Nat)

/-- One step of the presence registry.  `on_connect` records the handle and
sets the user's `is_online` flag true; `on_disconnect` removes the handle
and, when it was present, unconditionally sets that user's `is_online`
flag false. -/
def pstep (st : PresenceState) : PEvent → PresenceState
  | PEvent.connect h uid =>
      { connected := (h, uid) :: st.connected.filter (fun p => p.1 ≠ h),
        online := if uid ∈ st.online then st.online else uid :: st.online }
  | PEvent.disconnect h =>
      match st.connected.find? (fun p => decide (p.1 = h)) with
      | none => st
      | some p =>
          { connected := st.connected.filter (fun q => q.1 ≠ h),
            online := st.online.filter (fun u => u ≠ p.2) }

/-- The presence state reached from the empty registry (process start) by a
sequence of events. -/
def prun (evs : List PEvent) : PresenceState :=
  evs.foldl pstep { connected := [], online := [] }

/-- Result of parsing a user-agent string with the `user_agents` library
(an external collaborator, abstracted as a function into this record). -/
structure ParsedUA where
  browser_family : String
  browser_version : List Nat
  os_family : String
  os_version : List Nat
  device_family : String
  is_mobile : Bool
  is_tablet : Bool
  is_pc : Bool

/-- The `browser_version` / `os_version` formatting expression in
`generate_device_fingerprint`:  "maj.min" when two components exist, the
major alone when only one does, `"unknown"` otherwise. -/
def versionString : List Nat → String
  | [] => "unknown"
  | [a] => toString a
  | a :: b :: _ => toString a ++ "." ++ toString b

/-- Lexicographic order on character codes, used to model
`json.dumps(..., sort_keys=True)`. -/
def natListLe : List Nat → List Nat → Bool
  | [], _ => true
  | _ :: _, [] => false
  | a :: as, b :: bs => if a < b then true else if b < a then false else natListLe as bs

/-- Key order for the canonical serialization. -/
def keyLe (a b : String) : Bool :=
  natListLe (a.data.map Char.toNat) (b.data.map Char.toNat)

/-- Ordered insertion into a key-sorted association list. -/
def insertSorted (p : String × JVal) : List (String × JVal) → List (String × JVal)
  | [] => [p]
  | q :: qs => if keyLe p.1 q.1 then p :: q :: qs else q :: insertSorted p qs

/-- Key-sort of an association list (`sort_keys=True`). -/
def sortByKey (l : List (String × JVal)) : List (String × JVal) :=
  l.foldr insertSorted []

/-- JSON serialization of a value. -/
def serializeJVal : JVal → String
  | JVal.str v => "\"" ++ v ++ "\""
  | JVal.num v => toString v
  | JVal.bool true => "true"
  | JVal.bool false => "false"
  | JVal.null => "null"

/-- JSON serialization of the entries of an object. -/
def serializeEntries : List (String × JVal) → String
  | [] => ""
  | [p] => "\"" ++ p.1 ++ "\": " ++ serializeJVal p.2
  | p :: ps => "\"" ++ p.1 ++ "\": " ++ serializeJVal p.2 ++ ", " ++ serializeEntries ps

/-- `json.dumps` of a dict with sorted keys. -/
def serializeObj (l : List (String × JVal)) : String :=
  "\x7b" ++ serializeEntries (sortByKey l) ++ "\x7d"

/-- The five client-supplied attribute keys merged by
`generate_device_fingerprint`. -/
def clientAttrKeys : List String :=
  ["screen_width", "screen_height", "timezone", "color_depth", "pixel_ratio"]

/-- `generate_device_fingerprint` in utils/device_fingerprint.py.  `parse` is
the external `user_agents.parse`; `H` the hex digest; `ambientUA` /
`ambientLang` the Flask request headers read only when an argument is falsy.
`additional_data = none` models the `None` default and `some []` an empty
dict — both are falsy, so neither contributes client attributes; a non-empty
dict contributes all five keys, absent ones as `null` (via `dict.get`).
Returns the 32-character device id together with the attribute map that was
serialized and hashed. -/
def generate_device_fingerprint (parse : String → ParsedUA) (H : String → String)
    (ambientUA ambientLang : String) (user_agent accept_language : String)
    (additional_data : Option (List (String × JVal))) : String × List (String × JVal) :=
  let ua := if user_agent = "" then ambientUA else user_agent
  let lang := if accept_language = "" then ambientLang else accept_language
  let p := parse ua
  let base : List (String × JVal) :=
    [("browser_family", JVal.str p.browser_family),
     ("browser_version", JVal.str (versionString p.browser_version)),
     ("os_family", JVal.str p.os_family),
     ("os_version", JVal.str (versionString p.os_version)),
     ("device_family", JVal.str p.device_family),
     ("is_mobile", JVal.bool p.is_mobile),
     ("is_tablet", JVal.bool p.is_tablet),
     ("is_pc", JVal.bool p.is_pc),
     ("accept_language", JVal.str (if lang = "" then "" else lang.take 10))]
  let fingerprint_data :=
    match additional_data with
    | some ad =>
        if ad.isEmpty then base
        else base ++ clientAttrKeys.map (fun k => (k, (ad.lookup k).getD JVal.null))
    | none => base
  let fingerprint_string := serializeObj fingerprint_data
  ((H fingerprint_string).take 32, fingerprint_data)

/-- The session row persisted by `create_session` (30-day expiry, as called
from `login`), as a function of the store's id and nonce counters. -/
def mkSession (H : String → String) (st : Store) (now uid : Nat) (dev : String)
    (dn lo ip ua : Option String) : Session :=
  { id := st.nextId, user_id := uid, device_id := dev, device_name := dn,
    device_type := detect_device_type ua, user_agent := ua, ip_address := ip,
    location := lo,
    refresh_token_hash := hash_refresh_token H (freshToken st.nonce) (freshSecret st.nonce),
    session_secret := freshSecret st.nonce, status := SessionStatus.active,
    created_at := now, last_used_at := now, expires_at := now + 30 * 86400,
    revoked_at := none }

/-- Two consecutive remember-me logins for the same `(uid, dev)` pair: the
result of the first login and of the second, run against the store the first
one produced. -/
def login_twice (H : String → String) (st0 : Store) (now1 now2 uid : Nat)
    (dev : String) (dn1 lo1 ip1 ua1 dn2 lo2 ip2 ua2 : Option String) :
    (Store × Session) × (Store × Session) :=
  let first := login_remember H st0 now1 uid dev dn1 lo1 ip1 ua1
  (first, login_remember H first.1 now2 uid dev dn2 lo2 ip2 ua2)

/-- An active session belonging to the `(uid, dev)` pair. -/
def activeForPair (uid : Nat) (dev : String) (s : Session) : Bool :=
  decide (s.user_id = uid) && decide (s.device_id = dev) &&
    decide (s.status = SessionStatus.active)

/-- Concrete stand-in for `user_agents.parse`, used to evaluate theorems on
concrete inputs. -/
def uaParseFixture : String → ParsedUA := fun _ =>
  { browser_family := "Chrome", browser_version := [120, 0], os_family := "Windows",
    os_version := [10], device_family := "Other", is_mobile := false,
    is_tablet := false, is_pc := true }

/-- A concrete active session used to evaluate theorems on concrete inputs. -/
def demoSession : Session :=
  { id := 1, user_id := 7, device_id := "dev1", device_name := none,
    device_type := DeviceType.unknown, user_agent := none, ip_address := none,
    location := none, refresh_token_hash := "h1", session_secret := "sec1",
    status := SessionStatus.active, created_at := 0, last_used_at := 0,
    expires_at := 10, revoked_at := none }

/-- Rows whose primary key differs from `i` are untouched by `updateById`. -/
theorem updateById_eq_of_forall_ne (i : Nat) (f : Session → Session)
    (l : List Session) (h : ∀ s ∈ l, s.id ≠ i) : updateById i f l = l := by
  induction l with
  | nil => rfl
  | cons a as ih =>
      simp only [updateById, List.map_cons]
      rw [if_neg (h a (List.mem_cons_self a as))]
      have := ih (fun s hs => h s (List.mem_cons_of_mem a hs))
      simpa [updateById] using this

/-!  Claim C10. -/

/-- C10: `verify_refresh_token` returns `none` for a missing/empty raw token
and for a missing/empty device id, leaving the session table unchanged and
raising nothing. -/
theorem verify_refresh_token_rejects_empty (H : String → String)
    (sessions : List Session) (now : Nat) (tok dev : String) :
    verify_refresh_token H sessions now "" dev = (none, sessions) ∧
    verify_refresh_token H sessions now tok "" = (none, sessions) := by
  constructor <;> simp [verify_refresh_token]

/-!  Claim C9. -/

/-- C9: the summary produced by `to_dict` never carries the refresh-token
hash or a raw refresh token under any flag value, and carries the
per-session secret exactly when the include-sensitive flag is set; the
non-sensitive key set is listed explicitly. -/
theorem to_dict_sensitive_gating (now : Nat) (s : Session) (b : Bool) :
    (("session_secret" ∈ (to_dict now s b).map Prod.fst) ↔ b = true) ∧
    ("refresh_token_hash" ∉ (to_dict now s b).map Prod.fst) ∧
    ("refresh_token" ∉ (to_dict now s b).map Prod.fst) ∧
    ((to_dict now s false).map Prod.fst =
      ["id", "device_id", "device_name", "device_type", "ip_address", "location",
       "status", "created_at", "last_used_at", "expires_at", "is_current",
       "is_valid"]) := by
  cases b <;> simp [to_dict]

/-- Concrete instance of `verify_refresh_token_rejects_empty` on a one-row
table. -/
theorem verify_refresh_token_rejects_empty_witness :
    verify_refresh_token id [demoSession] 5 "" "dev1" = (none, [demoSession]) ∧
    verify_refresh_token id [demoSession] 5 "tok" "" = (none, [demoSession]) :=
  ⟨(verify_refresh_token_rejects_empty id [demoSession] 5 "tok" "dev1").1,
   (verify_refresh_token_rejects_empty id [demoSession] 5 "tok" "dev1").2⟩

/-- Concrete instance of `to_dict_sensitive_gating` on `demoSession`. -/
theorem to_dict_sensitive_gating_witness :
    ("session_secret" ∈ (to_dict 5 demoSession true).map Prod.fst) ∧
    ("refresh_token_hash" ∉ (to_dict 5 demoSession true).map Prod.fst) ∧
    ((to_dict 5 demoSession false).map Prod.fst =
      ["id", "device_id", "device_name", "device_type", "ip_address", "location",
       "status", "created_at", "last_used_at", "expires_at", "is_current",
       "is_valid"]) := by
  have h := to_dict_sensitive_gating 5 demoSession true
  have h0 := to_dict_sensitive_gating 5 demoSession false
  exact ⟨h.1.mpr rfl, h.2.1, h0.2.2.2⟩

/-!  Claim C4. -/

/-- C4 (code bug): after `connect(handle 1, user 1)`, `connect(handle 2,
user 1)`, `disconnect(handle 1)` the registry still holds a live connection
(2, 1) mapping to user 1, yet the user's `is_online` flag is false —
`on_disconnect` marks the user offline without checking for other live
connections, violating the online-iff-some-connection invariant. -/
theorem presence_invariant_fails_on_multi_connection :
    ((2, 1) ∈ (prun [PEvent.connect 1 1, PEvent.connect 2 1,
        PEvent.disconnect 1]).connected) ∧
    (1 ∉ (prun [PEvent.connect 1 1, PEvent.connect 2 1,
        PEvent.disconnect 1]).online) := by
  decide

/-!  Claim C5. -/

/-- C5: after `cleanup_expired_sessions`, every active session past its
expiry is expired, any session not matching the sweep condition — in
particular every revoked session — is unchanged, and the operation returns
the number of sessions it transitioned. -/
theorem cleanup_expired_spec (sessions : List Session) (now : Nat) :
    (cleanup_expired_sessions sessions now).1.length = sessions.length ∧
    (cleanup_expired_sessions sessions now).2 =
      (sessions.filter (fun s => decide (s.expires_at < now) &&
        decide (s.status = SessionStatus.active))).length ∧
    ∀ i (h1 : i < sessions.length)
      (h2 : i < (cleanup_expired_sessions sessions now).1.length),
      (((sessions.get ⟨i, h1⟩).expires_at < now →
          (sessions.get ⟨i, h1⟩).status = SessionStatus.active →
          (cleanup_expired_sessions sessions now).1.get ⟨i, h2⟩ =
            { sessions.get ⟨i, h1⟩ with status := SessionStatus.expired }) ∧
       ((sessions.get ⟨i, h1⟩).status = SessionStatus.revoked →
          (cleanup_expired_sessions sessions now).1.get ⟨i, h2⟩ =
            sessions.get ⟨i, h1⟩) ∧
       (¬((sessions.get ⟨i, h1⟩).expires_at < now ∧
           (sessions.get ⟨i, h1⟩).status = SessionStatus.active) →
          (cleanup_expired_sessions sessions now).1.get ⟨i, h2⟩ =
            sessions.get ⟨i, h1⟩)) := by
  refine ⟨by simp [cleanup_expired_sessions], rfl, ?_⟩
  intro i h1 h2
  have hg : (cleanup_expired_sessions sessions now).1.get ⟨i, h2⟩ =
      (if (sessions.get ⟨i, h1⟩).expires_at < now ∧
          (sessions.get ⟨i, h1⟩).status = SessionStatus.active
       then { sessions.get ⟨i, h1⟩ with status := SessionStatus.expired }
       else sessions.get ⟨i, h1⟩) := by
    simp [cleanup_expired_sessions, List.get_eq_getElem, List.getElem_map]
  refine ⟨fun hx hy => ?_, fun hrev => ?_, fun hn => ?_⟩
  · rw [hg, if_pos ⟨hx, hy⟩]
  · rw [hg, if_neg ?_]
    rintro ⟨-, hac⟩
    rw [hrev] at hac
    cases hac
  · rw [hg, if_neg hn]

/-- Concrete instance of `cleanup_expired_spec`: a single active session past
its expiry is swept, counted, and marked expired. -/
theorem cleanup_expired_spec_witness :
    (cleanup_expired_sessions [demoSession] 20).1.length = [demoSession].length ∧
    (cleanup_expired_sessions [demoSession] 20).2 = 1 ∧
    (cleanup_expired_sessions [demoSession] 20).1.get ⟨0, by decide⟩ =
      { demoSession with status := SessionStatus.expired } := by
  have h := cleanup_expired_spec [demoSession] 20
  refine ⟨h.1, ?_, ?_⟩
  · rw [h.2.1]; decide
  · exact (h.2.2 0 (by decide) (by decide)).1 (by decide) (by decide)

/-!  Claim C3. -/

/-- The blacklist only grows under further logout events, so membership is
stable. -/
theorem mem_foldl_logout (js : List Nat) (bl : List Nat) (j : Nat) (h : j ∈ bl) :
    j ∈ js.foldl logout_blacklist bl := by
  induction js generalizing bl with
  | nil => exact h
  | cons a as ih => exact ih _ (List.mem_cons_of_mem _ h)

/-- C3: an access token that validated successfully is rejected as revoked by
every validation performed after its `jti` enters the blacklist (whatever
further revocations follow), as long as it has not naturally expired; and no
validation ever accepts a token whose `jti` is in the revocation set —
membership is consulted on every call. -/
theorem validate_rejects_after_revoke (cfgKey : String) (bl : List Nat)
    (now later : Nat) (t : AccessToken) (more : List Nat)
    (hok : authOk (validate_access_token cfgKey bl now t) = true)
    (hexp : later < t.exp) :
    (validate_access_token cfgKey
        (more.foldl logout_blacklist (logout_blacklist bl t.jti)) later t =
      AuthResult.revoked) ∧
    (∀ (bl2 : List Nat) (now2 : Nat) (t2 : AccessToken), t2.jti ∈ bl2 →
      authOk (validate_access_token cfgKey bl2 now2 t2) = false) := by
  have hkey : t.key = cfgKey := by
    by_contra hne
    simp [validate_access_token, hne, authOk] at hok
  refine ⟨?_, ?_⟩
  · have hmem : t.jti ∈ more.foldl logout_blacklist (logout_blacklist bl t.jti) :=
      mem_foldl_logout more _ t.jti (List.mem_cons_self _ _)
    simp [validate_access_token, hkey, check_if_token_revoked, hmem,
      Nat.not_le.mpr hexp]
  · intro bl2 now2 t2 hmem
    unfold validate_access_token
    split
    · rfl
    · split
      · rfl
      · rw [if_pos]
        · rfl
        · simpa [check_if_token_revoked] using hmem

/-- Concrete instance of `validate_rejects_after_revoke`: a token accepted at
time 0 is rejected as revoked at time 100, before its expiry at 3600. -/
theorem validate_rejects_after_revoke_witness :
    authOk (validate_access_token "k" [] 0 (create_access_token "k" 5 0 3600 42)) = true ∧
    100 < (create_access_token "k" 5 0 3600 42).exp ∧
    validate_access_token "k"
        ([7].foldl logout_blacklist
          (logout_blacklist [] (create_access_token "k" 5 0 3600 42).jti)) 100
        (create_access_token "k" 5 0 3600 42) = AuthResult.revoked := by
  refine ⟨by decide, by decide, ?_⟩
  exact (validate_rejects_after_revoke "k" [] 0 100 (create_access_token "k" 5 0 3600 42)
    [7] (by decide) (by decide)).1

/-!  Claim C6. -/

/-- Revocation keeps the scope fields (`id`, `user_id`) of a row unchanged. -/
theorem revokeScope_revoke_mark (sid : Nat) (uid : Option Nat) (now : Nat)
    (s : Session) : revokeScope sid uid (revoke_mark now s) = revokeScope sid uid s := by
  simp [revokeScope, revoke_mark]

/-- Every row carrying the revoked primary key is revoked after the update. -/
theorem status_after_updateById_revoke (sid now : Nat) (l : List Session) :
    ∀ s ∈ updateById sid (revoke_mark now) l, s.id = sid →
      s.status = SessionStatus.revoked := by
  intro s hs hsid
  simp only [updateById, List.mem_map] at hs
  obtain ⟨t, -, ht⟩ := hs
  by_cases h : t.id = sid
  · rw [← ht, if_pos h]; rfl
  · rw [← ht, if_neg h] at hsid ⊢
    exact absurd hsid h

/-- A row in scope survives (still in scope) after the revocation update. -/
theorem exists_scope_after_updateById_revoke (sid : Nat) (uid : Option Nat)
    (now : Nat) (l : List Session) (h : ∃ s ∈ l, revokeScope sid uid s = true) :
    ∃ s ∈ updateById sid (revoke_mark now) l, revokeScope sid uid s = true := by
  obtain ⟨s, hs, hscope⟩ := h
  refine ⟨(fun t => if t.id = sid then revoke_mark now t else t) s, ?_, ?_⟩
  · exact List.mem_map_of_mem _ hs
  · show revokeScope sid uid (if s.id = sid then revoke_mark now s else s) = true
    by_cases hid : s.id = sid
    · rw [if_pos hid, revokeScope_revoke_mark]; exact hscope
    · rw [if_neg hid]; exact hscope

/-- The first call of `revoke_session` on a row in scope succeeds and updates
by the row's primary key, which equals the requested id. -/
theorem revoke_session_of_exists (l : List Session) (now sid : Nat)
    (uid : Option Nat) (h : ∃ s ∈ l, revokeScope sid uid s = true) :
    revoke_session l now sid uid =
      (updateById sid (revoke_mark now) l, true) := by
  obtain ⟨w, hw, hscope⟩ := h
  have hsome : (l.find? (revokeScope sid uid)).isSome = true :=
    List.find?_isSome.mpr ⟨w, hw, hscope⟩
  obtain ⟨s0, hs0⟩ := Option.isSome_iff_exists.mp hsome
  have hid : s0.id = sid := by
    have := List.find?_some hs0
    simp only [revokeScope, Bool.and_eq_true, decide_eq_true_eq] at this
    exact this.1
  simp [revoke_session, hs0, hid]

/-- C6 counterexample: revoking session 1 (scoped to its owner, user 7) and
then revoking it again returns `true` on the second call — not `false` as
the claim states, because `revoke_session` filters only by id and scope,
never by status. -/
theorem revoke_session_second_call_returns_true :
    (revoke_session (revoke_session [demoSession] 100 1 (some 7)).1
      200 1 (some 7)).2 = true := by
  decide

/-- C6 amended: the first `RevokeSession` on an id that exists under the
given scope returns `true` and leaves every row with that id revoked; a
second call on the same id is equally a success — it returns `true` (not
`false`), re-stamps `revoked_at`, leaves the status revoked and raises no
fault; `RevokeSession` on an id with no row under the scope returns `false`
and changes nothing. -/
theorem revoke_session_amended (sessions : List Session) (now1 now2 sid : Nat)
    (uid : Option Nat) :
    ((∃ s ∈ sessions, revokeScope sid uid s = true) →
      (revoke_session sessions now1 sid uid).2 = true ∧
      (∀ s ∈ (revoke_session sessions now1 sid uid).1, s.id = sid →
        s.status = SessionStatus.revoked) ∧
      (revoke_session (revoke_session sessions now1 sid uid).1 now2 sid uid).2 = true ∧
      (∀ s ∈ (revoke_session (revoke_session sessions now1 sid uid).1 now2 sid uid).1,
        s.id = sid → s.status = SessionStatus.revoked)) ∧
    ((∀ s ∈ sessions, revokeScope sid uid s = false) →
      revoke_session sessions now1 sid uid = (sessions, false)) := by
  constructor
  · intro hex
    have h1 := revoke_session_of_exists sessions now1 sid uid hex
    have hex2 : ∃ s ∈ (revoke_session sessions now1 sid uid).1,
        revokeScope sid uid s = true := by
      rw [h1]
      exact exists_scope_after_updateById_revoke sid uid now1 sessions hex
    have h2 := revoke_session_of_exists _ now2 sid uid hex2
    refine ⟨by rw [h1], ?_, by rw [h2], ?_⟩
    · rw [h1]; exact status_after_updateById_revoke sid now1 sessions
    · rw [h2]; exact status_after_updateById_revoke sid now2 _
  · intro hnone
    have hfind : sessions.find? (revokeScope sid uid) = none := by
      rw [List.find?_eq_none]
      intro x hx
      simp [hnone x hx]
    simp [revoke_session, hfind]

/-- Concrete instance of `revoke_session_amended`: session 1 revokes with
`true` twice and stays revoked; a request for the absent id 2 returns
`false`. -/
theorem revoke_session_amended_witness :
    (revoke_session [demoSession] 5 1 none).2 = true ∧
    (revoke_session (revoke_session [demoSession] 5 1 none).1 6 1 none).2 = true ∧
    revoke_session [demoSession] 5 2 none = ([demoSession], false) := by
  have h := (revoke_session_amended [demoSession] 5 6 1 none).1
    ⟨demoSession, by decide, by decide⟩
  have h2 := (revoke_session_amended [demoSession] 5 6 2 none).2 (by decide)
  exact ⟨h.1, h.2.2.1, h2⟩

/-!  Claim C7. -/

/-- C7: with a non-empty user agent, accept-language and client-attribute
map, `generate_device_fingerprint` never reads the ambient request headers —
its result (device id and attribute map alike) is the same under any two
ambient environments, hence repeated calls with the same arguments return
the same device id: the computation is a pure function of its arguments. -/
theorem fingerprint_deterministic_and_pure (parse : String → ParsedUA)
    (H : String → String) (a1 a2 b1 b2 : String) (ua lang : String)
    (ad : List (String × JVal)) (hua : ua ≠ "") (hlang : lang ≠ "")
    (had : ad ≠ []) :
    generate_device_fingerprint parse H a1 b1 ua lang (some ad) =
      generate_device_fingerprint parse H a2 b2 ua lang (some ad) := by
  simp [generate_device_fingerprint, hua, hlang]

/-- Concrete instance of `fingerprint_deterministic_and_pure`: two different
ambient header environments produce the identical fingerprint result. -/
theorem fingerprint_deterministic_and_pure_witness :
    ("UA" : String) ≠ "" ∧ ("en" : String) ≠ "" ∧
    ([("timezone", JVal.str "UTC")] : List (String × JVal)) ≠ [] ∧
    generate_device_fingerprint uaParseFixture id "ambA" "ambB" "UA" "en"
        (some [("timezone", JVal.str "UTC")]) =
      generate_device_fingerprint uaParseFixture id "ambX" "ambY" "UA" "en"
        (some [("timezone", JVal.str "UTC")]) := by
  refine ⟨by decide, by decide, by decide, ?_⟩
  exact fingerprint_deterministic_and_pure uaParseFixture id "ambA" "ambX" "ambB" "ambY"
    "UA" "en" [("timezone", JVal.str "UTC")] (by decide) (by decide) (by decide)

/-!  Claim C8. -/

/-- C8 counterexample: with the supplied client attributes containing only
`screen_width`, the attribute map that is serialized and hashed contains the
absent field `timezone` — bound to the `null` sentinel via `dict.get` — so
absent fields are not omitted as the claim states. -/
theorem fingerprint_null_sentinel_counterexample :
    ("timezone", JVal.null) ∈
      (generate_device_fingerprint uaParseFixture id "" "" "UA" "en"
        (some [("screen_width", JVal.num 100)])).2 := by
  decide

/-- C8 amended: when a non-empty client-attribute map is supplied, all five
client fields appear in the serialized-and-hashed attribute map, each field
absent from the supplied map bound to the `null` sentinel rather than
omitted; the device id computed with an empty client-attribute map still
equals the one computed with no client attributes at all, since both are
falsy and skip the merge. -/
theorem fingerprint_attrs_amended (parse : String → ParsedUA) (H : String → String)
    (aUA aLang ua lang : String) (ad : List (String × JVal)) (had : ad ≠ []) :
    (∀ k ∈ clientAttrKeys,
        k ∈ (generate_device_fingerprint parse H aUA aLang ua lang
          (some ad)).2.map Prod.fst) ∧
    (∀ k ∈ clientAttrKeys, ad.lookup k = none →
        (k, JVal.null) ∈
          (generate_device_fingerprint parse H aUA aLang ua lang (some ad)).2) ∧
    generate_device_fingerprint parse H aUA aLang ua lang (some []) =
      generate_device_fingerprint parse H aUA aLang ua lang none := by
  have hne : ad.isEmpty = false := by
    cases ad with
    | nil => exact absurd rfl had
    | cons a as => rfl
  refine ⟨?_, ?_, rfl⟩
  · intro k hk
    simp only [generate_device_fingerprint, hne, Bool.false_eq_true, if_false,
      List.map_append, List.map_map, List.mem_append]
    right
    simpa [Function.comp] using hk
  · intro k hk hlook
    simp only [generate_device_fingerprint, hne, Bool.false_eq_true, if_false,
      List.mem_append]
    right
    have : (k, ((ad.lookup k).getD JVal.null)) ∈
        clientAttrKeys.map (fun k => (k, (ad.lookup k).getD JVal.null)) :=
      List.mem_map_of_mem _ hk
    rwa [hlook] at this

/-- Concrete instance of `fingerprint_attrs_amended`: with only
`color_depth` supplied, `timezone` appears bound to `null`, and the empty
map agrees with the absent map. -/
theorem fingerprint_attrs_amended_witness :
    ("timezone" ∈ (generate_device_fingerprint uaParseFixture id "a" "b" "UA" "en"
        (some [("color_depth", JVal.num 24)])).2.map Prod.fst) ∧
    (("timezone", JVal.null) ∈ (generate_device_fingerprint uaParseFixture id "a" "b"
        "UA" "en" (some [("color_depth", JVal.num 24)])).2) ∧
    generate_device_fingerprint uaParseFixture id "a" "b" "UA" "en" (some []) =
      generate_device_fingerprint uaParseFixture id "a" "b" "UA" "en" none := by
  have h := fingerprint_attrs_amended uaParseFixture id "a" "b" "UA" "en"
    [("color_depth", JVal.num 24)] (by decide)
  exact ⟨h.1 "timezone" (by decide), h.2.1 "timezone" (by decide) (by decide), h.2.2⟩

/-!  Claim C1. -/

/-- C1: for non-empty arguments, `verify_refresh_token` succeeds exactly when
the table holds a session for the device that is active, unexpired, and
whose stored hash is the digest of the raw token joined to the session
secret; the returned session has its `last_used_at` set to `now` and lives
in the returned table.  If every session of the device is non-active (for
instance revoked) the result is `none`, and for a device with no session at
all the result is `none` with the table untouched. -/
theorem verify_refresh_token_spec (H : String → String) (sessions : List Session)
    (now : Nat) (tok dev : String) (htok : tok ≠ "") (hdev : dev ≠ "") :
    ((verify_refresh_token H sessions now tok dev).1.isSome = true ↔
      ∃ s ∈ sessions, s.device_id = dev ∧ s.status = SessionStatus.active ∧
        now < s.expires_at ∧
        s.refresh_token_hash = hash_refresh_token H tok s.session_secret) ∧
    (∀ s', (verify_refresh_token H sessions now tok dev).1 = some s' →
      s'.last_used_at = now ∧ s' ∈ (verify_refresh_token H sessions now tok dev).2) ∧
    ((∀ s ∈ sessions, s.device_id = dev → s.status ≠ SessionStatus.active) →
      (verify_refresh_token H sessions now tok dev).1 = none) ∧
    ((∀ s ∈ sessions, s.device_id ≠ dev) →
      verify_refresh_token H sessions now tok dev = (none, sessions)) := by
  have hv : verify_refresh_token H sessions now tok dev =
      (match sessions.find? (verifyCandidate H now tok dev) with
       | none => (none, sessions)
       | some s => (some { s with last_used_at := now },
          updateById s.id (fun t => { t with last_used_at := now }) sessions)) := by
    simp [verify_refresh_token, htok, hdev]
  have hcand : ∀ s, verifyCandidate H now tok dev s = true ↔
      (s.device_id = dev ∧ s.status = SessionStatus.active ∧ now < s.expires_at ∧
        s.refresh_token_hash = hash_refresh_token H tok s.session_secret) := by
    intro s
    simp only [verifyCandidate, Bool.and_eq_true, decide_eq_true_eq]
    constructor
    · rintro ⟨⟨⟨h1, h2⟩, h3⟩, h4⟩
      exact ⟨h1, h2, h3, h4.symm⟩
    · rintro ⟨h1, h2, h3, h4⟩
      exact ⟨⟨⟨h1, h2⟩, h3⟩, h4.symm⟩
  refine ⟨?_, ?_, ?_, ?_⟩
  · rw [hv]
    cases hfind : sessions.find? (verifyCandidate H now tok dev) with
    | none =>
        simp only [Option.isSome_none, Bool.false_eq_true, false_iff]
        rintro ⟨s, hs, hprops⟩
        have := List.find?_eq_none.mp hfind s hs
        exact this ((hcand s).mpr hprops)
    | some s =>
        simp only [Option.isSome_some, true_iff]
        exact ⟨s, List.mem_of_find?_eq_some hfind,
          (hcand s).mp (List.find?_some hfind)⟩
  · intro s' hs'
    rw [hv] at hs'
    cases hfind : sessions.find? (verifyCandidate H now tok dev) with
    | none => rw [hfind] at hs'; cases hs'
    | some s =>
        rw [hfind] at hs'
        have heq : s' = { s with last_used_at := now } := by
          cases hs'; rfl
        subst heq
        refine ⟨rfl, ?_⟩
        rw [hv, hfind]
        have hmem : s ∈ sessions := List.mem_of_find?_eq_some hfind
        have := List.mem_map_of_mem
          (fun t => if t.id = s.id then { t with last_used_at := now } else t) hmem
        simpa [updateById] using this
  · intro hall
    rw [hv]
    have hfind : sessions.find? (verifyCandidate H now tok dev) = none := by
      rw [List.find?_eq_none]
      intro x hx hcx
      obtain ⟨h1, h2, -, -⟩ := (hcand x).mp hcx
      exact hall x hx h1 h2
    rw [hfind]
  · intro hall
    rw [hv]
    have hfind : sessions.find? (verifyCandidate H now tok dev) = none := by
      rw [List.find?_eq_none]
      intro x hx hcx
      exact hall x hx ((hcand x).mp hcx).1
    rw [hfind]

/-- Concrete instance of `verify_refresh_token_spec`: with digest `id`, the
table holding `demoSession` with its hash recomputed accepts the matching
raw token before expiry, and the success updates `last_used_at`. -/
theorem verify_refresh_token_spec_witness :
    ((verify_refresh_token id
      [{ demoSession with refresh_token_hash := "raw:sec1" }] 5 "raw" "dev1").1.isSome
        = true ↔
      ∃ s ∈ [{ demoSession with refresh_token_hash := "raw:sec1" }],
        s.device_id = "dev1" ∧ s.status = SessionStatus.active ∧ 5 < s.expires_at ∧
        s.refresh_token_hash = hash_refresh_token id "raw" s.session_secret) ∧
    (verify_refresh_token id
      [{ demoSession with refresh_token_hash := "raw:sec1" }] 5 "raw" "dev1").1.isSome
        = true := by
  have h := verify_refresh_token_spec id
    [{ demoSession with refresh_token_hash := "raw:sec1" }] 5 "raw" "dev1"
    (by decide) (by decide)
  refine ⟨h.1, ?_⟩
  rw [h.1]
  decide

/-!  Claim C2. -/

/-- Digest inputs assembled from distinct nonces differ: their lengths
differ. -/
theorem fresh_combined_ne (m n : Nat) (h : m ≠ n) :
    freshToken m ++ ":" ++ freshSecret m ≠ freshToken n ++ ":" ++ freshSecret n := by
  intro he
  have hl := congrArg String.length he
  simp only [String.length_append, freshToken, freshSecret, String.length_mk,
    List.length_replicate] at hl
  omega

/-- `updateById` distributes over list concatenation. -/
theorem updateById_append (i : Nat) (f : Session → Session) (l₁ l₂ : List Session) :
    updateById i f (l₁ ++ l₂) = updateById i f l₁ ++ updateById i f l₂ := by
  simp [updateById]

/-- `login_remember` with no existing active session simply creates one. -/
theorem login_remember_none (H : String → String) (st : Store) (now uid : Nat)
    (dev : String) (dn lo ip ua : Option String)
    (h : st.sessions.find? (existingActivePred uid dev now) = none) :
    login_remember H st now uid dev dn lo ip ua =
      ({ sessions := st.sessions ++ [mkSession H st now uid dev dn lo ip ua],
         nextId := st.nextId + 1, nonce := st.nonce + 1 },
       mkSession H st now uid dev dn lo ip ua) := by
  simp [login_remember, h, create_session, mkSession]

/-- `login_remember` with an existing active session `e`: `e` is extended and
touched, a rotated replacement is created, then `e` is revoked. -/
theorem login_remember_some (H : String → String) (st : Store) (now uid : Nat)
    (dev : String) (dn lo ip ua : Option String) (e : Session)
    (h : st.sessions.find? (existingActivePred uid dev now) = some e) :
    login_remember H st now uid dev dn lo ip ua =
      ({ sessions := updateById e.id (revoke_mark now)
            (updateById e.id (fun s => update_activity now ip (extend_expiration now 30 s))
              st.sessions ++ [mkSession H st now uid dev dn lo ip ua]),
         nextId := st.nextId + 1, nonce := st.nonce + 1 },
       mkSession H st now uid dev dn lo ip ua) := by
  simp [login_remember, h, create_session, mkSession]

/-- C2: starting from a store holding no session for the `(uid, dev)` pair
(and fresh primary keys), two remember-me logins in a row — the second
before the first session's expiry — leave exactly one active session for the
pair; every row with the first login's session id ends up revoked, and the
replacement session is active and carries a freshly generated refresh-token
hash different from the first one (for an injective digest). -/
theorem login_rotation_spec (H : String → String) (st0 : Store) (now1 now2 uid : Nat)
    (dev : String) (dn1 lo1 ip1 ua1 dn2 lo2 ip2 ua1' : Option String)
    (hinj : Function.Injective H)
    (hpair : ∀ s ∈ st0.sessions, ¬(s.user_id = uid ∧ s.device_id = dev))
    (hid : ∀ s ∈ st0.sessions, s.id < st0.nextId)
    (hfresh : now2 < now1 + 30 * 86400) :
    (((login_twice H st0 now1 now2 uid dev dn1 lo1 ip1 ua1
        dn2 lo2 ip2 ua1').2.1.sessions.filter (activeForPair uid dev)).length = 1) ∧
    (∀ s ∈ (login_twice H st0 now1 now2 uid dev dn1 lo1 ip1 ua1
        dn2 lo2 ip2 ua1').2.1.sessions,
      s.id = (login_twice H st0 now1 now2 uid dev dn1 lo1 ip1 ua1
        dn2 lo2 ip2 ua1').1.2.id →
      s.status = SessionStatus.revoked) ∧
    (login_twice H st0 now1 now2 uid dev dn1 lo1 ip1 ua1
        dn2 lo2 ip2 ua1').2.2.status = SessionStatus.active ∧
    (login_twice H st0 now1 now2 uid dev dn1 lo1 ip1 ua1 dn2 lo2 ip2 ua1').2.2
      ∈ (login_twice H st0 now1 now2 uid dev dn1 lo1 ip1 ua1
        dn2 lo2 ip2 ua1').2.1.sessions ∧
    (login_twice H st0 now1 now2 uid dev dn1 lo1 ip1 ua1
        dn2 lo2 ip2 ua1').2.2.refresh_token_hash
      ≠ (login_twice H st0 now1 now2 uid dev dn1 lo1 ip1 ua1
        dn2 lo2 ip2 ua1').1.2.refresh_token_hash := by
  have hnone : ∀ t, st0.sessions.find? (existingActivePred uid dev t) = none := by
    intro t
    rw [List.find?_eq_none]
    intro x hx hcx
    simp only [existingActivePred, Bool.and_eq_true, decide_eq_true_eq] at hcx
    exact hpair x hx ⟨hcx.1.1.1, hcx.1.1.2⟩
  have hfirst := login_remember_none H st0 now1 uid dev dn1 lo1 ip1 ua1 (hnone now1)
  set S1 : Session := mkSession H st0 now1 uid dev dn1 lo1 ip1 ua1 with hS1
  set st1 : Store := ⟨st0.sessions ++ [S1], st0.nextId + 1, st0.nonce + 1⟩ with hst1
  have hpredS1 : existingActivePred uid dev now2 S1 = true := by
    simp [existingActivePred, hS1, mkSession, hfresh]
  have h2 : st1.sessions.find? (existingActivePred uid dev now2) = some S1 := by
    show (st0.sessions ++ [S1]).find? _ = _
    rw [List.find?_append, hnone now2]
    simp [hpredS1]
  have hsecond := login_remember_some H st1 now2 uid dev dn2 lo2 ip2 ua1' S1 h2
  set S2 : Session := mkSession H st1 now2 uid dev dn2 lo2 ip2 ua1' with hS2
  set S1t : Session := update_activity now2 ip2 (extend_expiration now2 30 S1) with hS1t
  have hS1id : S1.id = st0.nextId := by rw [hS1]; rfl
  have hS2id : S2.id = st0.nextId + 1 := by rw [hS2]; rfl
  have hS1tid : S1t.id = S1.id := by
    rw [hS1t]
    unfold update_activity extend_expiration
    split <;> rfl
  have hne0 : ∀ s ∈ st0.sessions, s.id ≠ S1.id := by
    intro s hs
    rw [hS1id]
    exact Nat.ne_of_lt (hid s hs)
  have htouch : updateById S1.id
      (fun s => update_activity now2 ip2 (extend_expiration now2 30 s)) st1.sessions
      = st0.sessions ++ [S1t] := by
    show updateById S1.id _ (st0.sessions ++ [S1]) = _
    rw [updateById_append, updateById_eq_of_forall_ne S1.id _ st0.sessions hne0]
    simp [updateById, hS1t]
  have hS2ne : S2.id ≠ S1.id := by
    rw [hS2id, hS1id]
    omega
  have hrevlist : updateById S1.id (revoke_mark now2)
      (st0.sessions ++ [S1t] ++ [S2]) =
      st0.sessions ++ [revoke_mark now2 S1t] ++ [S2] := by
    rw [updateById_append, updateById_append,
      updateById_eq_of_forall_ne S1.id _ st0.sessions hne0]
    congr 1
    · simp [updateById, hS1tid]
    · simp [updateById, hS2ne]
  have hL : login_twice H st0 now1 now2 uid dev dn1 lo1 ip1 ua1 dn2 lo2 ip2 ua1' =
      ((st1, S1),
       ({ sessions := st0.sessions ++ [revoke_mark now2 S1t] ++ [S2],
          nextId := st0.nextId + 2, nonce := st0.nonce + 2 }, S2)) := by
    have hsecond2 : login_remember H (st1, S1).1 now2 uid dev dn2 lo2 ip2 ua1' =
        ({ sessions := updateById S1.id (revoke_mark now2)
              (updateById S1.id
                  (fun s => update_activity now2 ip2 (extend_expiration now2 30 s))
                st1.sessions ++ [S2]),
           nextId := st1.nextId + 1, nonce := st1.nonce + 1 }, S2) := hsecond
    simp only [login_twice]
    rw [hfirst, hsecond2, htouch, hrevlist]
  rw [hL]
  refine ⟨?_, ?_, ?_, ?_, ?_⟩
  · show ((st0.sessions ++ [revoke_mark now2 S1t] ++ [S2]).filter
      (activeForPair uid dev)).length = 1
    have hfilter0 : st0.sessions.filter (activeForPair uid dev) = [] := by
      rw [List.filter_eq_nil_iff]
      intro a ha hact
      simp only [activeForPair, Bool.and_eq_true, decide_eq_true_eq] at hact
      exact hpair a ha ⟨hact.1.1, hact.1.2⟩
    have hrevoked : activeForPair uid dev (revoke_mark now2 S1t) = false := by
      simp [activeForPair, revoke_mark]
    have hS2act : activeForPair uid dev S2 = true := by
      simp [activeForPair, hS2, mkSession]
    simp [List.filter_append, hfilter0, hrevoked, hS2act]
  · show ∀ s ∈ st0.sessions ++ [revoke_mark now2 S1t] ++ [S2], s.id = S1.id →
      s.status = SessionStatus.revoked
    intro s hs hsid
    rcases List.mem_append.mp hs with hs1 | hs2
    · rcases List.mem_append.mp hs1 with hs3 | hs4
      · exact absurd hsid (hne0 s hs3)
      · rw [List.mem_singleton.mp hs4]
        rfl
    · rw [List.mem_singleton.mp hs2] at hsid
      exact absurd hsid hS2ne
  · show S2.status = SessionStatus.active
    rw [hS2]
    rfl
  · show S2 ∈ st0.sessions ++ [revoke_mark now2 S1t] ++ [S2]
    exact List.mem_append_right _ (List.mem_singleton.mpr rfl)
  · show S2.refresh_token_hash ≠ S1.refresh_token_hash
    intro heq
    rw [hS2, hS1] at heq
    simp only [mkSession, hash_refresh_token] at heq
    have hcomb := hinj heq
    exact fresh_combined_ne (st0.nonce + 1) st0.nonce (by omega) hcomb

/-- Concrete instance of `login_rotation_spec`: from the empty store, two
remember-me logins for user 7 on device "d" leave one active session whose
hash differs from the first login's hash. -/
theorem login_rotation_spec_witness :
    (((login_twice id ⟨[], 0, 0⟩ 0 1 7 "d" none none none none
        none none none none).2.1.sessions.filter (activeForPair 7 "d")).length = 1) ∧
    ((login_twice id ⟨[], 0, 0⟩ 0 1 7 "d" none none none none
        none none none none).2.2.refresh_token_hash
      ≠ (login_twice id ⟨[], 0, 0⟩ 0 1 7 "d" none none none none
        none none none none).1.2.refresh_token_hash) := by
  have h := login_rotation_spec id ⟨[], 0, 0⟩ 0 1 7 "d" none none none none
    none none none none (fun a b hab => hab) (by simp) (by simp) (by omega)
  exact ⟨h.1, h.2.2.2.2⟩
